import Mathlib

set_option autoImplicit false
set_option maxRecDepth 10000

/-!
Shallow embedding of the MCP pattern server (`mcp-server/src/index.ts`):
the four request handlers (list resources, read resource, list tools, call
tool), the substring-based validation function, and the template-generation
function.  Strings are modelled as Lean `String`s (lists of characters);
the ASCII fragment of the JS case mappings is modelled explicitly.
-/

/-- `leadsWith pat s` is true when the char list `pat` occurs at the start
of `s`. -/
def leadsWith : List Char → List Char → Bool
  | [], _ => true
  | _ :: _, [] => false
  | p :: ps, c :: cs => p == c && leadsWith ps cs

/-- `hasSub pat s` is true when `pat` occurs contiguously somewhere in `s`. -/
def hasSub (pat : List Char) : List Char → Bool
  | [] => leadsWith pat []
  | c :: cs => leadsWith pat (c :: cs) || hasSub pat cs

/-- JS `s.includes(pat)`: substring containment. -/
def jsIncludes (s pat : String) : Bool := hasSub pat.data s.data

/-- `validateAngularCode(code, type)` from `index.ts`: an ordered list of
substring checks, each pushing one fixed issue message.  (`ty` renders the
TS parameter `type`; `\x27` is the ASCII apostrophe.) -/
def validateAngularCode (code ty : String) : List String := Id.run do
  let mut issues : List String := []
  if ty == "component" then
    if !(jsIncludes code "standalone: true") then
      issues := issues ++ ["Component must be standalone"]
    if !(jsIncludes code "signal(") then
      issues := issues ++ ["Use signals for reactive state"]
    if jsIncludes code "class=" && !(jsIncludes code "container-fluid")
        && !(jsIncludes code "btn") && !(jsIncludes code "card") then
      issues := issues ++ ["Use Bootstrap classes instead of custom CSS"]
  if ty == "service" then
    if !(jsIncludes code "providedIn: \x27root\x27") then
      issues := issues ++ ["Service must use providedIn: root"]
    if !(jsIncludes code "inject(") then
      issues := issues ++ ["Use inject() function for dependency injection"]
  return issues

/-- `ANGULAR_PATTERNS.code_templates.component` (braces written `\x7b`/`\x7d`,
apostrophe `\x27`). -/
def componentTemplate : String :=
  "@Component(\x7b\n  selector: \x27app-\x7bname\x7d\x27,\n  standalone: true,\n  imports: [CommonModule],\n  template: `<div class=\"container-fluid\">...</div>`\n\x7d)\nexport class \x7bName\x7dComponent \x7b\n  loading = signal(false);\n\x7d"

/-- `ANGULAR_PATTERNS.code_templates.service`. -/
def serviceTemplate : String :=
  "@Injectable(\x7b providedIn: \x27root\x27 \x7d)\nexport class \x7bName\x7dService \x7b\n  private http = inject(HttpClient);\n  private _state = signal(initialState);\n  state = this._state.asReadonly();\n\x7d"

/-- `ANGULAR_PATTERNS.code_templates.guard`. -/
def guardTemplate : String :=
  "export const \x7bname\x7dGuard: CanActivateFn = (route, state) => \x7b\n  const service = inject(SomeService);\n  return service.check();\n\x7d;"

/-- The property names a JS object literal inherits from `Object.prototype`,
all bound to truthy members (functions, or for `__proto__` the prototype
object itself). -/
def objectPrototypeKeys : List String :=
  ["constructor", "hasOwnProperty", "isPrototypeOf", "propertyIsEnumerable",
   "toLocaleString", "toString", "valueOf", "__proto__", "__defineGetter__",
   "__defineSetter__", "__lookupGetter__", "__lookupSetter__"]

/-- Outcome of the JS property access `templates[type]`: an own key with its
template text, a truthy member inherited from `Object.prototype` (a function
or object, not a string), or `undefined`. -/
inductive TemplateLookup where
  | own : String → TemplateLookup
  | inherited : TemplateLookup
  | missing : TemplateLookup
deriving DecidableEq

/-- `templates[type]`: JS property access on the `code_templates` object
literal.  The three own keys yield their template texts; the
`Object.prototype` member names are found through the prototype chain; any
other key yields `undefined`. -/
def code_templates (ty : String) : TemplateLookup :=
  if ty = "component" then .own componentTemplate
  else if ty = "service" then .own serviceTemplate
  else if ty = "guard" then .own guardTemplate
  else if ty ∈ objectPrototypeKeys then .inherited
  else .missing

/-- ASCII uppercase test: JS regex `[A-Z]`. -/
def isUpperAZ (c : Char) : Bool := 65 ≤ c.toNat && c.toNat ≤ 90

/-- ASCII lowercase test. -/
def isLowerAZ (c : Char) : Bool := 97 ≤ c.toNat && c.toNat ≤ 122

/-- ASCII case-lowering of one character (the fragment of the JS `toLowerCase`
mapping exercised here). -/
def lowerChar (c : Char) : Char :=
  if isUpperAZ c then Char.ofNat (c.toNat + 32) else c

/-- ASCII case-raising of one character. -/
def upperChar (c : Char) : Char :=
  if isLowerAZ c then Char.ofNat (c.toNat - 32) else c

/-- JS `s.toLowerCase()` (ASCII fragment). -/
def jsToLower (s : String) : String := ⟨s.data.map lowerChar⟩

/-- JS `s.replace(/([A-Z])/g, "-$1")`: a hyphen inserted in front of every
ASCII uppercase letter. -/
def dashUpper : List Char → List Char
  | [] => []
  | c :: cs => if isUpperAZ c then '-' :: c :: dashUpper cs else c :: dashUpper cs

/-- JS `s.slice(1)`: the string with its first character removed. -/
def sliceOne (s : String) : String := ⟨s.data.drop 1⟩

/-- The `{name}` substitution argument built inside `generateTemplate`:
`name.toLowerCase().replace(/([A-Z])/g, "-$1").slice(1)`. -/
def kebabArg (s : String) : String := sliceOne ⟨dashUpper (jsToLower s).data⟩

/-- JS `s.charAt(0)`: a one-character string, or empty when `s` is empty. -/
def charAt0 (s : String) : String :=
  match s.data with
  | [] => ""
  | c :: _ => ⟨[c]⟩

/-- JS `s.toUpperCase()` (ASCII fragment). -/
def jsToUpper (s : String) : String := ⟨s.data.map upperChar⟩

/-- The `{Name}` substitution argument built inside `generateTemplate`:
`name.charAt(0).toUpperCase() + name.slice(1)`. -/
def pascalArg (s : String) : String := jsToUpper (charAt0 s) ++ sliceOne s

/-- The backquote character (code 96). -/
def backquoteChar : Char := Char.ofNat 96

/-- The apostrophe character (code 39). -/
def apostropheChar : Char := Char.ofNat 39

/-- ECMAScript GetSubstitution for a string replacement and a pattern with no
capture groups: `$$` yields a dollar, `$&` the matched text, `$` followed by
a backquote the part of the subject before the match, `$` followed by an
apostrophe the part after it; every other `$` sequence (including
`$1`..`$9`, as there are no captures) is kept literally. -/
def substDollar (matched before after : List Char) : List Char → List Char
  | [] => []
  | [c] => [c]
  | c :: d :: rest =>
    if c = '$' then
      if d = '$' then '$' :: substDollar matched before after rest
      else if d = '&' then matched ++ substDollar matched before after rest
      else if d = backquoteChar then before ++ substDollar matched before after rest
      else if d = apostropheChar then after ++ substDollar matched before after rest
      else '$' :: d :: substDollar matched before after rest
    else c :: substDollar matched before after (d :: rest)

/-- Worker of the JS global replacement: scans left to right; `seen` holds
the already-scanned original text in reverse (the before-part for
GetSubstitution), and on every match the replacement text is `$`-expanded
against the original subject.  Fuel as in `replGo`. -/
def jsReplGo (pat repl : List Char) : Nat → List Char → List Char → List Char
  | _, _, [] => []
  | 0, _, s => s
  | fuel + 1, seen, c :: cs =>
    if pat.length != 0 && leadsWith pat (c :: cs) then
      substDollar pat seen.reverse (cs.drop (pat.length - 1)) repl ++
        jsReplGo pat repl fuel (pat.reverse ++ seen) (cs.drop (pat.length - 1))
    else
      c :: jsReplGo pat repl fuel (c :: seen) cs

/-- JS `s.replace(/pat/g, repl)` for a pattern of plain characters and a
string replacement: global replacement with GetSubstitution `$`-expansion
of the replacement text. -/
def jsReplaceAll (pat repl s : String) : String :=
  ⟨jsReplGo pat.data repl.data s.data.length [] s.data⟩

/-- `generateTemplate(type, name)` from `index.ts`.  The lookup
`templates[type]` consults the prototype chain: an own key yields the
template text, which is substituted and returned; a key naming an
`Object.prototype` member yields a truthy non-string, so the `if (!template)`
guard does not fire and the subsequent `template.replace` call throws a
TypeError (modelled as `.error`); any other key yields `undefined` and the
"Template not found" text is returned as an ordinary value. -/
def generateTemplate (ty nm : String) : Except String String :=
  match code_templates ty with
  | .missing => .ok ("Template not found for type: " ++ ty)
  | .inherited => .error "TypeError: template.replace is not a function"
  | .own t =>
      .ok (jsReplaceAll "\x7bName\x7d" (pascalArg nm)
            (jsReplaceAll "\x7bname\x7d" (kebabArg nm) t))

/-- The text block built by the `validate-angular-code` branch of the
CallTool handler. -/
def formatValidation (issues : List String) : String :=
  if issues.length = 0 then "✅ Code follows all realworld patterns!"
  else "❌ Issues found:\n" ++ String.intercalate "\n" (issues.map (fun i => "- " ++ i))

/-- The arguments object of a CallTool request (the fields the two tools
read; `ty` renders the TS property `type`). -/
structure CallArgs where
  code : String
  ty : String
  name : String

/-- The CallTool dispatch from `index.ts`: a successful text payload, or a
thrown error (`.error msg`) — for an unknown tool name, or propagated out of
`generateTemplate` when the template lookup hits an inherited member. -/
def callTool (toolName : String) (args : CallArgs) : Except String String :=
  if toolName == "validate-angular-code" then
    .ok (formatValidation (validateAngularCode args.code args.ty))
  else if toolName == "generate-angular-template" then
    generateTemplate args.ty args.name
  else
    .error ("Tool not found: " ++ toolName)

/-- The text carried by a handler outcome: the ok payload, or the thrown
error's message. -/
def exceptText : Except String String → String
  | .ok t => t
  | .error e => e

/-- Minimal JSON value shape, for the static catalog data the server
serializes into resource payloads. -/
inductive Jsonish where
  | str : String → Jsonish
  | arr : List Jsonish → Jsonish
  | obj : List (String × Jsonish) → Jsonish

/-- JSON string quoting (quote, backslash and newline escaped; the catalog
strings contain nothing else that `JSON.stringify` would escape). -/
def jsonQuote (s : String) : String :=
  "\"" ++ ⟨s.data.foldr (fun c acc =>
    if c = '"' then '\\' :: '"' :: acc
    else if c = '\\' then '\\' :: '\\' :: acc
    else if c = '\n' then '\\' :: 'n' :: acc
    else c :: acc) []⟩ ++ "\""

mutual
/-- `JSON.stringify(v, null, 2)`, with `ind` the indentation of the
enclosing line. -/
def jstr (ind : String) : Jsonish → String
  | .str s => jsonQuote s
  | .arr [] => "[]"
  | .arr (x :: xs) =>
      "[\n"
        ++ String.intercalate ",\n"
            ((jstrList (ind ++ "  ") (x :: xs)).map (fun t => ind ++ "  " ++ t))
        ++ "\n" ++ ind ++ "]"
  | .obj [] => "\x7b\x7d"
  | .obj (kv :: kvs) =>
      "\x7b\n"
        ++ String.intercalate ",\n"
            ((jstrObj (ind ++ "  ") (kv :: kvs)).map (fun t => ind ++ "  " ++ t))
        ++ "\n" ++ ind ++ "\x7d"

/-- Renders each array element. -/
def jstrList (ind : String) : List Jsonish → List String
  | [] => []
  | x :: xs => jstr ind x :: jstrList ind xs

/-- Renders each `"key": value` line of an object. -/
def jstrObj (ind : String) : List (String × Jsonish) → List String
  | [] => []
  | (k, v) :: kvs => (jsonQuote k ++ ": " ++ jstr ind v) :: jstrObj ind kvs
end

/-- `ANGULAR_PATTERNS.rules`: the static catalog branch served by the
`patterns://angular/rules` resource. -/
def patternRules : Jsonish :=
  .obj [
    ("mandatory_structure", .obj [
      ("apps", .str "Application entry points only"),
      ("libs", .obj [
        ("core", .str "Global singletons & infrastructure"),
        ("shared", .str "Reusable UI components & utilities"),
        ("auth", .str "Authentication & authorization"),
        ("features", .str "Domain-driven feature modules"),
        ("interfaces", .str "TypeScript type definitions"),
        ("utils", .str "Pure utility functions"),
        ("styles", .str "Design system & SCSS"),
        ("state", .str "Global state management"),
        ("i18n", .str "Internationalization")])]),
    ("dependency_boundaries", .obj [
      ("allowed", .obj [
        ("apps/*", .arr [.str "libs/*"]),
        ("libs/features/*", .arr [.str "libs/shared/*", .str "libs/core/*",
          .str "libs/interfaces/*", .str "libs/utils/*"]),
        ("libs/shared/*", .arr [.str "libs/core/*", .str "libs/interfaces/*",
          .str "libs/utils/*"]),
        ("libs/core/*", .arr [.str "libs/interfaces/*", .str "libs/utils/*"])]),
      ("forbidden", .obj [
        ("libs/core/*", .arr [.str "libs/features/*", .str "libs/shared/*"]),
        ("libs/shared/*", .arr [.str "libs/features/*"]),
        ("cross_domain", .str "No imports between admin/lab/billing features")])]),
    ("angular_patterns", .obj [
      ("components", .str "ALWAYS standalone"),
      ("state", .str "ALWAYS use signals"),
      ("routing", .str "ALWAYS lazy loading"),
      ("guards", .str "ALWAYS functional with inject()"),
      ("services", .str "ALWAYS injectable with providedIn"),
      ("modules", .str "NEVER use NgModules")]),
    ("styling_patterns", .obj [
      ("framework", .str "Bootstrap 5 ONLY"),
      ("custom_css", .str "FORBIDDEN"),
      ("utility_classes", .str "REQUIRED"),
      ("components", .str "Use Bootstrap components")]),
    ("security_patterns", .obj [
      ("auth_guards", .str "REQUIRED for protected routes"),
      ("interceptors", .str "REQUIRED for HTTP auth"),
      ("error_handling", .str "REQUIRED with global handler"),
      ("validation", .str "REQUIRED for all forms")])]

/-- `ANGULAR_PATTERNS.validation_rules`. -/
def validation_rules : List String := [
  "Check dependency boundaries before imports",
  "Ensure standalone components only",
  "Verify Bootstrap classes usage",
  "Confirm signals for reactive state",
  "Validate proper file structure placement",
  "Ensure proper TypeScript interfaces",
  "Check auth guards on protected routes",
  "Verify lazy loading implementation"]

/-- Payload text of `patterns://angular/rules`:
`JSON.stringify(ANGULAR_PATTERNS.rules, null, 2)`. -/
def rulesText : String := jstr "" patternRules

/-- Payload text of `patterns://angular/validation`:
`JSON.stringify(ANGULAR_PATTERNS.validation_rules, null, 2)`. -/
def validationText : String := jstr "" (.arr (validation_rules.map .str))

/-- Payload text of `patterns://angular/templates`: the labelled template
blocks joined by blank lines, in catalog-declaration order. -/
def templatesText : String :=
  String.intercalate "\n\n" [
    "// COMPONENT TEMPLATE\n" ++ componentTemplate,
    "// SERVICE TEMPLATE\n" ++ serviceTemplate,
    "// GUARD TEMPLATE\n" ++ guardTemplate]

/-- One entry of a ReadResource response's `contents` array. -/
structure ResourceContent where
  uri : String
  mimeType : String
  text : String

/-- The ReadResource dispatch from `index.ts`: a content payload for the
three known uris, a thrown error (`.error msg`) for anything else. -/
def readResource (uri : String) : Except String ResourceContent :=
  if uri == "patterns://angular/rules" then
    .ok ⟨uri, "application/json", rulesText⟩
  else if uri == "patterns://angular/templates" then
    .ok ⟨uri, "text/plain", templatesText⟩
  else if uri == "patterns://angular/validation" then
    .ok ⟨uri, "application/json", validationText⟩
  else
    .error ("Resource not found: " ++ uri)

/-- One entry of the ListResources response. -/
structure ResourceDescriptor where
  uri : String
  mimeType : String
  name : String
  description : String

/-- The ListResources handler: a fixed list of three descriptors. -/
def listResources : List ResourceDescriptor := [
  ⟨"patterns://angular/rules", "application/json", "Angular Patterns Rules",
    "Complete set of enterprise Angular patterns and rules"⟩,
  ⟨"patterns://angular/templates", "text/plain", "Code Templates",
    "Reusable Angular code templates"⟩,
  ⟨"patterns://angular/validation", "application/json", "Validation Rules",
    "Rules for validating Angular code"⟩]

/-- One entry of the ListTools response (the input schema is advisory
metadata, echoed to the client but not enforced by the handlers). -/
structure ToolDescriptor where
  name : String
  description : String
  inputSchema : Jsonish

/-- The ListTools handler: a fixed list of two descriptors. -/
def listTools : List ToolDescriptor := [
  ⟨"validate-angular-code", "Validate Angular code against realworld patterns",
    .obj [("type", .str "object"),
          ("properties", .obj [
            ("code", .obj [("type", .str "string"),
                           ("description", .str "Angular code to validate")]),
            ("type", .obj [("type", .str "string"),
                           ("enum", .arr [.str "component", .str "service",
                                          .str "guard", .str "routing"]),
                           ("description", .str "Type of Angular code")])]),
          ("required", .arr [.str "code", .str "type"])]⟩,
  ⟨"generate-angular-template", "Generate Angular code template following patterns",
    .obj [("type", .str "object"),
          ("properties", .obj [
            ("type", .obj [("type", .str "string"),
                           ("enum", .arr [.str "component", .str "service",
                                          .str "guard"]),
                           ("description", .str "Type of template to generate")]),
            ("name", .obj [("type", .str "string"),
                           ("description", .str "Name for the generated code")])]),
          ("required", .arr [.str "type", .str "name"])]⟩]

/-- Modelled from the specification's description of the component checks
(for comparison with `validateAngularCode`): three independent blocks in
declaration order — missing `standalone: true`, missing `signal(`, and the
Bootstrap heuristic. -/
def componentChecksSpec (code : String) : List String :=
  (if jsIncludes code "standalone: true" then []
   else ["Component must be standalone"]) ++
  (if jsIncludes code "signal(" then []
   else ["Use signals for reactive state"]) ++
  (if jsIncludes code "class=" && !(jsIncludes code "container-fluid")
      && !(jsIncludes code "btn") && !(jsIncludes code "card") then
    ["Use Bootstrap classes instead of custom CSS"]
   else [])

/-- Modelled from the specification's description of the service checks
(for comparison with `validateAngularCode`): missing `providedIn: 'root'`,
then missing `inject(`. -/
def serviceChecksSpec (code : String) : List String :=
  (if jsIncludes code "providedIn: \x27root\x27" then []
   else ["Service must use providedIn: root"]) ++
  (if jsIncludes code "inject(" then []
   else ["Use inject() function for dependency injection"])

theorem leadsWith_append_self (p r : List Char) : leadsWith p (p ++ r) = true := by
  induction p with
  | nil => rfl
  | cons c cs ih => simp [leadsWith, ih]

theorem leadsWith_self (l : List Char) : leadsWith l l = true := by
  have h := leadsWith_append_self l []
  rwa [List.append_nil] at h

theorem hasSub_append_left (pat a b : List Char) (h : hasSub pat b = true) :
    hasSub pat (a ++ b) = true := by
  induction a with
  | nil => simpa using h
  | cons c cs ih => simp [hasSub, ih]

theorem hasSub_refl (l : List Char) : hasSub l l = true := by
  cases l with
  | nil => rfl
  | cons c cs => simp [hasSub, leadsWith_self]

theorem validate_component_eq (code : String) :
    validateAngularCode code "component" = componentChecksSpec code := by
  unfold validateAngularCode componentChecksSpec
  cases h1 : jsIncludes code "standalone: true" <;>
  cases h2 : jsIncludes code "signal(" <;>
  cases h3 : (jsIncludes code "class=" && !(jsIncludes code "container-fluid")
      && !(jsIncludes code "btn") && !(jsIncludes code "card")) <;>
  simp [Id.run, h1, h2, h3]

theorem validate_service_eq (code : String) :
    validateAngularCode code "service" = serviceChecksSpec code := by
  unfold validateAngularCode serviceChecksSpec
  cases h1 : jsIncludes code "providedIn: \x27root\x27" <;>
  cases h2 : jsIncludes code "inject(" <;>
  simp [Id.run, h1, h2]

theorem validate_other_eq (code ty : String) (h1 : ty ≠ "component")
    (h2 : ty ≠ "service") : validateAngularCode code ty = [] := by
  unfold validateAngularCode
  simp [Id.run, beq_iff_eq, h1, h2]

/-- C1: the claim that `generate-angular-template` substitutes the
kebab-cased name (for `UserList`, the string `user-list`) for each `{name}`
placeholder fails on the code: lower-casing runs before the
hyphen-insertion step, which therefore matches nothing, and `slice(1)` then
removes the first letter, so `UserList` is substituted as `serlist`.
This theorem evaluates the code at the failing input. -/
theorem c1_kebab_substitution_bug :
    kebabArg "UserList" = "serlist" ∧
    generateTemplate "component" "UserList" =
      .ok (jsReplaceAll "\x7bName\x7d" (pascalArg "UserList")
            (jsReplaceAll "\x7bname\x7d" (kebabArg "UserList") componentTemplate)) ∧
    hasSub "app-serlist".data
      (exceptText (generateTemplate "component" "UserList")).data = true ∧
    hasSub "user-list".data
      (exceptText (generateTemplate "component" "UserList")).data = false :=
  ⟨by decide, rfl, by decide, by decide⟩

/-- C2: with type `component`, exactly the three declared checks run in
declaration order (the code agrees with the spec-modelled check list); the
returned text is the fixed success string when no issue triggers and
otherwise a bulleted list with one line per triggered check; and the code
`class X {}` raises both the standalone and the signals issues. -/
theorem c2_component_validation (code : String) :
    validateAngularCode code "component" = componentChecksSpec code ∧
    (validateAngularCode code "component" = [] →
      callTool "validate-angular-code" ⟨code, "component", ""⟩ =
        .ok "✅ Code follows all realworld patterns!") ∧
    (validateAngularCode code "component" ≠ [] →
      callTool "validate-angular-code" ⟨code, "component", ""⟩ =
        .ok ("❌ Issues found:\n" ++ String.intercalate "\n"
          ((validateAngularCode code "component").map (fun i => "- " ++ i)))) ∧
    validateAngularCode "class X \x7b\x7d" "component" =
      ["Component must be standalone", "Use signals for reactive state"] := by
  refine ⟨validate_component_eq code, ?_, ?_, by decide⟩
  · intro h
    simp [callTool, formatValidation, h]
  · intro h
    have hlen : (validateAngularCode code "component").length ≠ 0 := by
      simpa [List.length_eq_zero] using h
    simp [callTool, formatValidation, hlen]

/-- Witness for C2 at the concrete input `class X {}`. -/
theorem c2_component_validation_witness :
    validateAngularCode "class X \x7b\x7d" "component" =
      componentChecksSpec "class X \x7b\x7d" ∧
    callTool "validate-angular-code" ⟨"class X \x7b\x7d", "component", ""⟩ =
      .ok "❌ Issues found:\n- Component must be standalone\n- Use signals for reactive state" := by
  have h := c2_component_validation "class X \x7b\x7d"
  refine ⟨h.1, ?_⟩
  rw [h.2.2.1 (by decide)]
  rfl

/-- Counterexample to C3 as stated: `toString` lies outside
{component, service, guard}, yet the call throws — the JS property access
`templates["toString"]` finds the inherited truthy
`Object.prototype.toString`, the `if (!template)` guard does not fire, and
`template.replace` is not a function — instead of returning a successful
"Template not found" text. -/
theorem c3_counterexample :
    (¬ ("toString" = "component" ∨ "toString" = "service" ∨
        "toString" = "guard")) ∧
    callTool "generate-angular-template" ⟨"", "toString", "X"⟩ =
      .error "TypeError: template.replace is not a function" :=
  ⟨by decide, rfl⟩

/-- C3 as amended: for a template type outside `component`/`service`/`guard`
that is also not one of the property names inherited from
`Object.prototype` (`toString`, `constructor`, `__proto__`, ...),
`generate-angular-template` does not throw: it returns a successful payload
whose text literally starts with "Template not found".  (At the inherited
names the lookup is truthy and the handler throws a TypeError.) -/
theorem c3_template_miss_returns_text (ty nm : String) (h1 : ty ≠ "component")
    (h2 : ty ≠ "service") (h3 : ty ≠ "guard")
    (h4 : ty ∉ objectPrototypeKeys) :
    callTool "generate-angular-template" ⟨"", ty, nm⟩ =
      .ok ("Template not found for type: " ++ ty) ∧
    leadsWith "Template not found".data
      ("Template not found for type: " ++ ty).data = true := by
  constructor
  · simp [callTool, generateTemplate, code_templates, h1, h2, h3, h4]
  · have hsplit : ("Template not found for type: ").data =
        ("Template not found").data ++ (" for type: ").data := by decide
    rw [String.data_append, hsplit, List.append_assoc]
    exact leadsWith_append_self _ _

/-- Witness for the amended C3 at the concrete template type `routing`. -/
theorem c3_template_miss_returns_text_witness :
    callTool "generate-angular-template" ⟨"", "routing", "X"⟩ =
      .ok ("Template not found for type: " ++ "routing") ∧
    leadsWith "Template not found".data
      ("Template not found for type: " ++ "routing").data = true :=
  c3_template_miss_returns_text "routing" "X" (by decide) (by decide) (by decide)
    (by decide)

/-- C4: an unknown resource uri makes `readResource` throw and an unknown
tool name makes `callTool` throw; both error messages embed the unresolved
identifier, and no payload is returned. -/
theorem c4_unknown_identifier_throws (uri toolName : String) (args : CallArgs)
    (hu1 : uri ≠ "patterns://angular/rules")
    (hu2 : uri ≠ "patterns://angular/templates")
    (hu3 : uri ≠ "patterns://angular/validation")
    (ht1 : toolName ≠ "validate-angular-code")
    (ht2 : toolName ≠ "generate-angular-template") :
    readResource uri = .error ("Resource not found: " ++ uri) ∧
    hasSub uri.data ("Resource not found: " ++ uri).data = true ∧
    callTool toolName args = .error ("Tool not found: " ++ toolName) ∧
    hasSub toolName.data ("Tool not found: " ++ toolName).data = true := by
  refine ⟨?_, ?_, ?_, ?_⟩
  · simp [readResource, beq_iff_eq, hu1, hu2, hu3]
  · rw [String.data_append]
    exact hasSub_append_left _ _ _ (hasSub_refl _)
  · simp [callTool, beq_iff_eq, ht1, ht2]
  · rw [String.data_append]
    exact hasSub_append_left _ _ _ (hasSub_refl _)

/-- Witness for C4 at a concrete unknown uri and unknown tool name. -/
theorem c4_unknown_identifier_throws_witness :
    readResource "patterns://angular/other" =
      .error ("Resource not found: " ++ "patterns://angular/other") ∧
    hasSub "patterns://angular/other".data
      ("Resource not found: " ++ "patterns://angular/other").data = true ∧
    callTool "unknown-tool" ⟨"", "", ""⟩ =
      .error ("Tool not found: " ++ "unknown-tool") ∧
    hasSub "unknown-tool".data ("Tool not found: " ++ "unknown-tool").data = true :=
  c4_unknown_identifier_throws "patterns://angular/other" "unknown-tool" ⟨"", "", ""⟩
    (by decide) (by decide) (by decide) (by decide) (by decide)

/-- C5: for any type other than `component` and `service` (such as `guard`
or `routing`), no checks are applied: the issue list is empty and the fixed
success message is returned, regardless of the code. -/
theorem c5_other_types_valid (code ty : String) (h1 : ty ≠ "component")
    (h2 : ty ≠ "service") :
    validateAngularCode code ty = [] ∧
    callTool "validate-angular-code" ⟨code, ty, ""⟩ =
      .ok "✅ Code follows all realworld patterns!" := by
  have hv := validate_other_eq code ty h1 h2
  refine ⟨hv, ?_⟩
  simp [callTool, formatValidation, hv]

/-- Witness for C5 at type `guard` with pattern-free code. -/
theorem c5_other_types_valid_witness :
    validateAngularCode "class=custom no patterns at all" "guard" = [] ∧
    callTool "validate-angular-code" ⟨"class=custom no patterns at all", "guard", ""⟩ =
      .ok "✅ Code follows all realworld patterns!" :=
  c5_other_types_valid "class=custom no patterns at all" "guard" (by decide) (by decide)

/-- C6: with type `service`, exactly the two declared checks run (the code
agrees with the spec-modelled check list), and the code `class X {}` raises
both the `providedIn` and the `inject()` issues. -/
theorem c6_service_validation (code : String) :
    validateAngularCode code "service" = serviceChecksSpec code ∧
    validateAngularCode "class X \x7b\x7d" "service" =
      ["Service must use providedIn: root",
       "Use inject() function for dependency injection"] :=
  ⟨validate_service_eq code, by decide⟩

/-- C8: `listResources` returns exactly the three fixed resource uris and
`listTools` exactly the two fixed tool names. -/
theorem c8_fixed_descriptor_sets :
    listResources.map (fun r => r.uri) =
      ["patterns://angular/rules", "patterns://angular/templates",
       "patterns://angular/validation"] ∧
    listResources.length = 3 ∧
    listTools.map (fun t => t.name) =
      ["validate-angular-code", "generate-angular-template"] ∧
    listTools.length = 2 :=
  ⟨rfl, rfl, rfl, rfl⟩

/-- C10: the Bootstrap heuristic searches the whole code string: whenever the
code contains `class=` and also contains any of `container-fluid`, `btn`,
`card` anywhere at all, the Bootstrap issue is not raised. -/
theorem c10_bootstrap_whole_string (code : String)
    (h1 : jsIncludes code "class=" = true)
    (h2 : jsIncludes code "container-fluid" = true ∨ jsIncludes code "btn" = true ∨
      jsIncludes code "card" = true) :
    "Use Bootstrap classes instead of custom CSS" ∉
      validateAngularCode code "component" := by
  rw [validate_component_eq]
  unfold componentChecksSpec
  have h3 : (jsIncludes code "class=" && !(jsIncludes code "container-fluid")
      && !(jsIncludes code "btn") && !(jsIncludes code "card")) = false := by
    rcases h2 with h | h | h <;> simp [h, h1]
  rw [h3]
  cases ha : jsIncludes code "standalone: true" <;>
  cases hb : jsIncludes code "signal(" <;>
  simp

/-- Witness for C10: code with a `class=` attribute and the substring `card`
occurring only inside the identifier `cardholder`. -/
theorem c10_bootstrap_whole_string_witness :
    "Use Bootstrap classes instead of custom CSS" ∉
      validateAngularCode "class=custom cardholder" "component" :=
  c10_bootstrap_whole_string "class=custom cardholder" (by decide)
    (Or.inr (Or.inr (by decide)))
